import Mathlib

/-!
Shallow embedding of the artifact-resolution service in `src/app.py`.

The service resolves, for `(application_name, company_id)`, stored blobs via
one of four strategies and issues a SAS link per resolved blob.  External
effects are embedded as explicit data:

* the blob store is a function from container name to its listing;
* MongoDB collections are lists of records; `find_one` with a filter is
  `List.find?`, `find_one` with a descending sort on `created_on` picks the
  first record attaining the maximal `created_on` among the matches (Python
  `max` / Mongo sort-then-take-first both return the first maximal element);
* downloading-and-parsing a blob (`download_blob` + `pd.read_csv`) is a
  function returning `Except` (an `Except.error` models a raised exception);
* `generate_sas_url`'s delegation/signing round trip is a function
  `SignFn` returning `Except` (its `Except.error` models a raised exception);
  the pure token structure it encodes is modelled separately below;
* a raised Python exception that a handler does not catch makes the handler
  return `Except.error`; every JSON response is `Except.ok (status, payload)`.
-/

namespace App

/-- A Python exception value. `keyError k` models `KeyError: k`
(raised by `d['k']` when the key is absent); `exn` models any other
exception (download, parse or SAS-signing failures). -/
inductive PyExn where
  | keyError (k : String)
  | exn (msg : String)
deriving DecidableEq, Repr

/-- A stored blob as returned by `container_client.list_blobs()`:
its `name` and its `last_modified` timestamp. -/
structure Blob where
  name : String
  last_modified : Nat
deriving DecidableEq, Repr

/-- The blob store: container name to listing, in listing order. -/
abbrev Storage := String → List Blob

/-- The embedding of `generate_sas_url(blob_service_client, account, c, b)`
as invoked inside a handler: container and blob name to either an issued URL
or a raised exception (delegation/signing failure). -/
abbrev SignFn := String → String → Except PyExn String

/-- The JSON body of a response, as built by `jsonify` in the handlers. -/
inductive Payload where
  | err (msg : String)
  | msgOnly (msg : String)
  | singleUrl (msg url : String)
  | files (msg : String) (entries : List (String × String))
deriving DecidableEq, Repr

/-- A handler's HTTP response: status code and JSON body. -/
abbrev Resp := Nat × Payload

/-- One element of a record's `asset_add_uploads` list; `upload_id = none`
models a dict that lacks the `'upload_id'` key. -/
structure UploadEntry where
  upload_id : Option String
deriving DecidableEq, Repr

/-- A document of the upload-tracking collection; `asset_add_uploads = none`
models a document without that key. -/
structure UploadRecord where
  company_id : String
  created_on : Nat
  asset_add_uploads : Option (List UploadEntry)
deriving DecidableEq, Repr

/-- One element of a generic record's `connection_details` list;
`csp_acct_name = none` models an absent key. -/
structure ConnectionDetail where
  csp_acct_name : Option String
deriving DecidableEq, Repr

/-- A document of the generic collection, with the workbook filename fields
read by the F5/CHECKPOINT handler (`none` models an absent key, and
`record.get(k)` returning `None`). -/
structure GenericRecord where
  company_id : String
  license_asset_summary_workbook_processed : Option String
  pricing_retired_workbook_processed : Option String
  pricing_active_workbook_processed : Option String
  orders_workbook_processed : Option String
  product_list_workbook_processed : Option String
  connection_details : List ConnectionDetail
deriving DecidableEq, Repr

/-- One entry of `app_container_mapping`: the container list and the
storage account name of an application. -/
structure AppProfile where
  containers : List String
  account_name : String
deriving DecidableEq, Repr

/-- The environment variables consumed by `app_container_mapping`
(`os.getenv` values; their concrete strings are deployment data). -/
structure Config where
  container_ATnA : String
  container_PALOALTO_1 : String
  container_PALOALTO_2 : String
  container_EAROI : String
  container_F5 : String
  container_CHECKPOINT : String
  container_MCE : String
  container_CISCO_IBR : String
  container_BYOW : String
  account_ATnA : String
  account_PALOALTO : String
  account_EAROI : String
  account_F5 : String
  account_CHECKPOINT : String
  account_MCE : String
  account_CISCO_IBR : String
  account_BYOW : String
deriving DecidableEq, Repr

/-- The static `app_container_mapping` dict: application name to profile;
`none` models `app_name not in app_container_mapping`. -/
def app_container_mapping (cfg : Config) (app_name : String) : Option AppProfile :=
  if app_name == "ATnA" then some ⟨[cfg.container_ATnA], cfg.account_ATnA⟩
  else if app_name == "PALOALTO" then
    some ⟨[cfg.container_PALOALTO_1, cfg.container_PALOALTO_2], cfg.account_PALOALTO⟩
  else if app_name == "EAROI" then some ⟨[cfg.container_EAROI], cfg.account_EAROI⟩
  else if app_name == "F5" then some ⟨[cfg.container_F5], cfg.account_F5⟩
  else if app_name == "CHECKPOINT" then some ⟨[cfg.container_CHECKPOINT], cfg.account_CHECKPOINT⟩
  else if app_name == "MCE" then some ⟨[cfg.container_MCE], cfg.account_MCE⟩
  else if app_name == "CISCOIBR" then some ⟨[cfg.container_CISCO_IBR], cfg.account_CISCO_IBR⟩
  else if app_name == "BYOW" then some ⟨[cfg.container_BYOW], cfg.account_BYOW⟩
  else none

/-- `needle.toList` is a prefix of the second list (character-wise). -/
def listStartsWith : List Char → List Char → Bool
  | [], _ => true
  | _ :: _, [] => false
  | a :: as, b :: bs => a == b && listStartsWith as bs

/-- The needle occurs as a contiguous sublist of the haystack. -/
def listHasSub (needle : List Char) : List Char → Bool
  | [] => needle.isEmpty
  | b :: bs => listStartsWith needle (b :: bs) || listHasSub needle bs

/-- Python's `needle in hay` on strings: contiguous-substring test. -/
def strContains (hay needle : String) : Bool :=
  listHasSub needle.toList hay.toList

/-- `s` starts with `pre` (the `name_starts_with=` server-side filter of
`list_blobs`). -/
def strStartsWith (s pre : String) : Bool :=
  listStartsWith pre.toList s.toList

/-- First element of the list attaining the maximal key: the value of
Python's `max(l, key=f)` (first maximal wins), and of Mongo's
sort-descending-take-first on key `f`. `none` iff the list is empty. -/
def argmaxFirst (f : α → Nat) : List α → Option α
  | [] => none
  | a :: as =>
    match argmaxFirst f as with
    | none => some a
    | some b => if f b > f a then some b else some a

/-- Leading and trailing whitespace removed (Python's `str.strip`). -/
def listTrim (l : List Char) : List Char :=
  (((l.dropWhile Char.isWhitespace).reverse).dropWhile Char.isWhitespace).reverse

/-- Python's `s.strip().lower()` normalization used by the PALOALTO handler:
trim surrounding whitespace, then lowercase every character. -/
def pyStripLower (s : String) : String :=
  ⟨(listTrim s.data).map Char.toLower⟩

/-- A parsed CSV table (`pd.read_csv(..., dtype=str)`): column name to the
column's values as strings. -/
abbrev Table := List (String × List String)

/-- The embedding of `blob_client.download_blob(...).readall()` followed by
`pd.read_csv` on a given (container, blob name): a parsed table, or a raised
exception on download or parse failure. -/
abbrev FetchFn := String → String → Except PyExn Table

/-! ### Link issuer (`generate_sas_url`), pure token structure -/

/-- The user delegation key returned by
`blob_service_client.get_user_delegation_key(start, expiry)`. -/
structure DelegationKey where
  key_start : Nat
  key_expiry : Nat
deriving DecidableEq, Repr

/-- The SAS token built by `generate_blob_sas`: it carries the account,
container and blob it is scoped to, the read-only permission flag,
the delegation key and the expiry instant. -/
structure SasToken where
  account_name : String
  container_name : String
  blob_name : String
  read_only : Bool
  delegation_key : DelegationKey
  expiry : Nat
deriving DecidableEq, Repr

/-- The URL returned by `generate_sas_url`:
`https://{account}.blob.core.windows.net/{container}/{blob}?{sas_token}`,
kept structured (host path components plus the query token). -/
structure SasUrl where
  account_name : String
  container_name : String
  blob_name : String
  token : SasToken
deriving DecidableEq, Repr

/-- `get_user_delegation_key(start, expiry)`. -/
def get_user_delegation_key (key_start key_expiry : Nat) : DelegationKey :=
  ⟨key_start, key_expiry⟩

/-- `generate_blob_sas(account_name, container_name, blob_name,
user_delegation_key, permission=BlobSasPermissions(read=True), expiry)`. -/
def generate_blob_sas (account container blob : String)
    (key : DelegationKey) (readPerm : Bool) (expiry : Nat) : SasToken :=
  ⟨account, container, blob, readPerm, key, expiry⟩

/-- `generate_sas_url(client, account, container, blob, expiry_minutes)`:
expiry is `utcnow() + timedelta(minutes=expiry_minutes)` (time in minutes,
`now` the issue instant); delegation key spans `[now, expiry]`; permission
is `BlobSasPermissions(read=True)`. -/
def generate_sas_url (now : Nat) (account container blob : String)
    (expiry_minutes : Nat) : SasUrl :=
  let expiry := now + expiry_minutes
  let delegation_key := get_user_delegation_key now expiry
  let sas_token := generate_blob_sas account container blob delegation_key true expiry
  ⟨account, container, blob, sas_token⟩

/-- The call `generate_sas_url(client, account, container, blob)` with the
declared default `expiry_minutes=15`. -/
def generate_sas_url_default (now : Nat) (account container blob : String) : SasUrl :=
  generate_sas_url now account container blob 15

/-! ### `handle_atna_download` -/

/-- The container scan of `handle_atna_download`: containers in configured
order, each listing in order; the first blob whose name has `upload_id` as a
substring, with its container. -/
def atna_find (storage : Storage) (upload_id : String) :
    List String → Option (String × Blob)
  | [] => none
  | c :: rest =>
    match (storage c).find? (fun b => strContains b.name upload_id) with
    | some b => some (c, b)
    | none => atna_find storage upload_id rest

/-- The tail of `handle_atna_download` once `upload_id` is selected: scan the
containers; on the first hit issue a SAS link and return 200 (a signing
exception propagates uncaught); after a full empty scan return 404. -/
def atna_resolve (storage : Storage) (sign : SignFn) (containers : List String)
    (upload_id : String) : Except PyExn Resp :=
  match atna_find storage upload_id containers with
  | some (_c, b) =>
    match sign _c b.name with
    | .error e => .error e
    | .ok url => .ok (200, .singleUrl ("SAS link generated for " ++ b.name) url)
  | none => .ok (404, .err "No file found matching upload_id")

/-- `handle_atna_download`: `find_one({'company_id': company_id},
sort=[('created_on', -1)])`, the guard on the record and its
`asset_add_uploads`, selection of `asset_add_uploads[0]['upload_id']`
(a missing `'upload_id'` key raises `KeyError`), then the container scan. -/
def handle_atna_download (storage : Storage) (sign : SignFn)
    (containers : List String) (coll : List UploadRecord) (company_id : String) :
    Except PyExn Resp :=
  match argmaxFirst (fun r => r.created_on)
      (coll.filter (fun r => r.company_id == company_id)) with
  | none => .ok (404, .err "No upload_id found for the given company_id")
  | some r =>
    match r.asset_add_uploads with
    | none => .ok (404, .err "No upload_id found for the given company_id")
    | some [] => .ok (404, .err "No upload_id found for the given company_id")
    | some (e0 :: _) =>
      match e0.upload_id with
      | none => .error (.keyError "upload_id")
      | some upload_id => atna_resolve storage sign containers upload_id

/-! ### `handle_f5_checkpoint_download` -/

/-- The inner loop of the F5/CHECKPOINT scan for one filename in one
container: `list_blobs(name_starts_with=blob_name)` then the first blob with
`blob.name == blob_name` (the `break` ends only this inner loop). -/
def f5_find_in_container (listing : List Blob) (blob_name : String) : Option Blob :=
  (listing.filter (fun b => strStartsWith b.name blob_name)).find? (fun b => b.name == blob_name)

/-- The container loop of the F5/CHECKPOINT scan for one filename: every
configured container is visited (no cross-container break); each container
holding an exact match contributes one `(file, url)` pair; a signing
exception propagates uncaught. -/
def f5_scan_file (storage : Storage) (sign : SignFn) (blob_name : String) :
    List String → Except PyExn (List (String × String))
  | [] => .ok []
  | c :: rest =>
    match f5_find_in_container (storage c) blob_name with
    | none => f5_scan_file storage sign blob_name rest
    | some _ =>
      match sign c blob_name with
      | .error e => .error e
      | .ok url =>
        match f5_scan_file storage sign blob_name rest with
        | .error e => .error e
        | .ok l => .ok ((blob_name, url) :: l)

/-- The full F5/CHECKPOINT scan: the per-filename scans, concatenated in
filename order (`sas_links` accumulates across the outer loop). -/
def f5_scan (storage : Storage) (sign : SignFn) (containers : List String) :
    List String → Except PyExn (List (String × String))
  | [] => .ok []
  | f :: fs =>
    match f5_scan_file storage sign f containers with
    | .error e => .error e
    | .ok l =>
      match f5_scan storage sign containers fs with
      | .error e => .error e
      | .ok ls => .ok (l ++ ls)

/-- The three workbook fields read for F5. -/
def f5_fields (r : GenericRecord) : List (Option String) :=
  [r.license_asset_summary_workbook_processed,
   r.pricing_retired_workbook_processed,
   r.pricing_active_workbook_processed]

/-- The two workbook fields read for CHECKPOINT. -/
def checkpoint_fields (r : GenericRecord) : List (Option String) :=
  [r.orders_workbook_processed, r.product_list_workbook_processed]

/-- `[f for f in files_to_download if f]`: drop absent fields and empty
strings (Python falsiness). -/
def truthyFilter (l : List (Option String)) : List String :=
  (l.filterMap id).filter (fun f => f ≠ "")

/-- The `files_to_download` list built by `handle_f5_checkpoint_download`:
the application-specific workbook fields, with falsy entries dropped. -/
def f5_files_to_download (app_name : String) (record : GenericRecord) : List String :=
  truthyFilter
    (if app_name == "F5" then f5_fields record
     else if app_name == "CHECKPOINT" then checkpoint_fields record
     else [])

/-- `handle_f5_checkpoint_download`: generic-collection point lookup, the
application-specific workbook fields, the truthiness filter, then the scan;
404 on no record, no filenames, or an empty scan result. -/
def handle_f5_checkpoint_download (storage : Storage) (sign : SignFn)
    (containers : List String) (coll : List GenericRecord)
    (app_name company_id : String) : Except PyExn Resp :=
  match coll.find? (fun r => r.company_id == company_id) with
  | none => .ok (404, .err ("No record found for company_id: " ++ company_id))
  | some record =>
    let files_to_download := f5_files_to_download app_name record
    if files_to_download.isEmpty then
      .ok (404, .err "No workbook filenames found in MongoDB record")
    else
      match f5_scan storage sign containers files_to_download with
      | .error e => .error e
      | .ok sas_links =>
        if sas_links.isEmpty then
          .ok (404, .err "No matching blobs found in containers")
        else
          .ok (200, .files "SAS links generated" sas_links)

/-! ### `handle_paloalto_download` -/

/-- The `try:` body of the PALOALTO per-blob step: download and parse the
blob; if the `'CSP Acct Name'` column is present, normalize it and test
membership of the target; a match issues a SAS link. Any raised exception
(download, parse, or signing) is caught by the `except:` and the blob is
skipped (`none`); a column-less or non-matching blob is also `none`. -/
def paloalto_blob_result (fetch : FetchFn) (sign : SignFn)
    (csp_acct_name : String) (c : String) (b : Blob) : Option (String × String) :=
  match fetch c b.name with
  | .error _ => none
  | .ok df =>
    match List.lookup "CSP Acct Name" df with
    | none => none
    | some vals =>
      if csp_acct_name ∈ vals.map pyStripLower then
        match sign c b.name with
        | .error _ => none
        | .ok url => some (b.name, url)
      else none

/-- The PALOALTO scan of one container's listing: every blob is visited
(full scan, no early exit); all per-blob results are collected. -/
def paloalto_scan_container (fetch : FetchFn) (sign : SignFn)
    (csp_acct_name c : String) (listing : List Blob) : List (String × String) :=
  listing.filterMap (paloalto_blob_result fetch sign csp_acct_name c)

/-- The full PALOALTO scan over all configured containers, in order. -/
def paloalto_scan (storage : Storage) (fetch : FetchFn) (sign : SignFn)
    (csp_acct_name : String) : List String → List (String × String)
  | [] => []
  | c :: rest =>
    paloalto_scan_container fetch sign csp_acct_name c (storage c) ++
      paloalto_scan storage fetch sign csp_acct_name rest

/-- `handle_paloalto_download`: generic-collection point lookup, the
`connection_details[0].get('csp_acct_name')` guard (empty list, absent key
or empty string all fail), target normalization, the full scan, then 200
with the matches or 200 with 'No matching data found'. -/
def handle_paloalto_download (storage : Storage) (fetch : FetchFn) (sign : SignFn)
    (containers : List String) (coll : List GenericRecord) (company_id : String) :
    Except PyExn Resp :=
  match coll.find? (fun r => r.company_id == company_id) with
  | none => .ok (404, .err ("No record found for company_id: " ++ company_id))
  | some record =>
    match record.connection_details.head? with
    | none => .ok (404, .err "No csp_acct_name found")
    | some cd =>
      match cd.csp_acct_name with
      | none => .ok (404, .err "No csp_acct_name found")
      | some raw =>
        if raw == "" then .ok (404, .err "No csp_acct_name found")
        else
          let csp_acct_name := pyStripLower raw
          let matching_files := paloalto_scan storage fetch sign csp_acct_name containers
          if matching_files.isEmpty then
            .ok (200, .msgOnly "No matching data found")
          else
            .ok (200, .files "SAS links generated" matching_files)

/-! ### `handle_latest_blob_download` -/

/-- One iteration of the recency loop: the container's listing filtered to
names containing `company_id`; if non-empty, its `max(matching,
key=last_modified)` (first maximal) replaces the current best only when
strictly more recent (or when there is no current best). -/
def latest_step (storage : Storage) (company_id : String)
    (best : Option (String × Blob)) (c : String) : Option (String × Blob) :=
  match argmaxFirst (fun b => b.last_modified)
      ((storage c).filter (fun b => strContains b.name company_id)) with
  | none => best
  | some most_recent =>
    match best with
    | none => some (c, most_recent)
    | some p =>
      if most_recent.last_modified > p.2.last_modified then some (c, most_recent) else best

/-- The recency loop over the configured containers. -/
def latest_go (storage : Storage) (company_id : String) :
    Option (String × Blob) → List String → Option (String × Blob)
  | best, [] => best
  | best, c :: rest => latest_go storage company_id (latest_step storage company_id best c) rest

/-- The blob selected by `handle_latest_blob_download`'s loop (with its
container), starting from `latest_blob = None`. -/
def latest_blob_pick (storage : Storage) (containers : List String)
    (company_id : String) : Option (String × Blob) :=
  latest_go storage company_id none containers

/-- `handle_latest_blob_download`: the recency selection; 200 with a message
if nothing matched; otherwise SAS issuance inside `try:` — a signing
exception yields the structured 500 response. -/
def handle_latest_blob_download (storage : Storage) (sign : SignFn)
    (containers : List String) (company_id : String) : Except PyExn Resp :=
  match latest_blob_pick storage containers company_id with
  | none => .ok (200, .msgOnly "No files found for company_id")
  | some (c, b) =>
    match sign c b.name with
    | .ok url =>
      .ok (200, .singleUrl ("Download link for " ++ b.name ++ " generated") url)
    | .error _ => .ok (500, .err "Failed to generate download link")

/-! ### `download_latest_files` (the dispatcher) -/

/-- Everything the process touches at request time: the env-derived config,
the blob store, the two Mongo collections, and the effectful download/parse
and SAS-signing calls. -/
structure Env where
  cfg : Config
  storage : Storage
  fetch : FetchFn
  sign : SignFn
  uploads : List UploadRecord
  generic : List GenericRecord

/-- `download_latest_files`: the truthiness guard on the two inputs (an
absent or empty string is falsy), the `app_container_mapping` membership
guard, then dispatch to the strategy handler with the profile's containers. -/
def download_latest_files (env : Env) (app_name company_id : String) :
    Except PyExn Resp :=
  if app_name == "" || company_id == "" then
    .ok (400, .err "Missing application_name or company_id")
  else
    match app_container_mapping env.cfg app_name with
    | none => .ok (400, .err "Invalid application name")
    | some profile =>
      if app_name == "ATnA" then
        handle_atna_download env.storage env.sign profile.containers env.uploads company_id
      else if app_name == "F5" || app_name == "CHECKPOINT" then
        handle_f5_checkpoint_download env.storage env.sign profile.containers
          env.generic app_name company_id
      else if app_name == "PALOALTO" then
        handle_paloalto_download env.storage env.fetch env.sign profile.containers
          env.generic company_id
      else
        handle_latest_blob_download env.storage env.sign profile.containers company_id

deriving instance DecidableEq for Except

/-! ### Concrete evaluation data -/

/-- A concrete configuration (the deployment values of the env vars). -/
def cfg0 : Config :=
  ⟨"ct-atna", "ct-pa1", "ct-pa2", "ct-earoi", "ct-f5", "ct-cp", "ct-mce",
   "ct-cibr", "ct-byow", "acct-atna", "acct-pa", "acct-earoi", "acct-f5",
   "acct-cp", "acct-mce", "acct-cibr", "acct-byow"⟩

/-- An empty blob store. -/
def storageEmpty : Storage := fun _ => []

/-- A signing function that always succeeds, tagging container and blob. -/
def signOk : SignFn := fun c b => .ok (c ++ "/" ++ b ++ "?tok")

/-- A signing function that always raises (delegation/signing failure). -/
def signFail : SignFn := fun _ _ => .error (.exn "sas failure")

/-- A URL builder tagging container and blob, for exercising total signing. -/
def uColon : String → String → String := fun c b => c ++ ":" ++ b

/-- A download/parse function that always raises (network failure). -/
def fetchFail : FetchFn := fun _ _ => .error (.exn "download failure")

/-- An environment with empty storage and collections. -/
def env0 : Env := ⟨cfg0, storageEmpty, fetchFail, signOk, [], []⟩

/-- A store in which every container holds exactly the blob `f.csv`. -/
def storageF : Storage := fun _ => [⟨"f.csv", 0⟩]

/-- A store with one container `c1` holding one report blob. -/
def storageR : Storage := fun c => if c == "c1" then [⟨"report.csv", 7⟩] else []

/-- A parse result whose table has a `CSP Acct Name` column containing
`ACME ` (which normalizes to `acme`). -/
def fetchAcme : FetchFn := fun _ _ => .ok [("CSP Acct Name", ["ACME "])]

/-- A generic record for `ACME01` with one connection detail naming `Acme`. -/
def recAcme : GenericRecord :=
  ⟨"ACME01", none, none, none, none, none, [⟨some "Acme"⟩]⟩

/-- A generic record for `ACME01` with one F5 workbook filename configured. -/
def recF5 : GenericRecord :=
  ⟨"ACME01", some "acme01_lic.csv", none, none, none, none, []⟩

/-- An upload record whose first upload entry lacks the `upload_id` key. -/
def recNoKey : UploadRecord := ⟨"ACME01", 5, some [⟨none⟩]⟩

/-- An upload record whose first upload entry carries upload id `u-77`. -/
def recU77 : UploadRecord := ⟨"ACME01", 5, some [⟨some "u-77"⟩, ⟨some "u-12"⟩]⟩

/-- An older upload record for the same client, carrying upload id `u-12`. -/
def recOld : UploadRecord := ⟨"ACME01", 3, some [⟨some "u-12"⟩]⟩

/-- A download/parse function keyed on the blob name: `bad.csv` raises,
`nocol.csv` parses without the account-name column, anything else parses
with a matching `CSP Acct Name` column. -/
def fetchMix : FetchFn := fun _ b =>
  if b == "bad.csv" then .error (.exn "boom")
  else if b == "nocol.csv" then .ok [("Other", ["x"])]
  else .ok [("CSP Acct Name", ["ACME "])]

/-- A store whose container `c1` lists a failing blob, a column-less blob
and two matching blobs, in that order. -/
def storageMix : Storage := fun c =>
  if c == "c1" then [⟨"bad.csv", 0⟩, ⟨"nocol.csv", 0⟩, ⟨"m1.csv", 0⟩, ⟨"m2.csv", 0⟩]
  else []

/-- A store whose containers `a` and `b` both hold a blob matching `u-77`. -/
def storageU : Storage :=
  fun c =>
    if c == "a" then [⟨"x-other", 1⟩, ⟨"asset-u-77.csv", 2⟩]
    else if c == "b" then [⟨"asset-u-77-copy.csv", 3⟩]
    else []

/-- A store for the recency strategy: `c1` holds two `acme` blobs (stamps 3
then 5) and `c2` one `acme` blob with the same maximal stamp 5. -/
def storageT : Storage :=
  fun c =>
    if c == "c1" then [⟨"acme-old", 3⟩, ⟨"acme-new", 5⟩]
    else if c == "c2" then [⟨"acme-tie", 5⟩]
    else []

/-! ### Helper lemmas -/

theorem listStartsWith_refl : ∀ l : List Char, listStartsWith l l = true := by
  intro l
  induction l with
  | nil => rfl
  | cons a as ih => simp [listStartsWith, ih]

theorem find?_filter {α : Type} (l : List α) (p q : α → Bool) :
    (l.filter q).find? p = l.find? (fun a => q a && p a) := by
  induction l with
  | nil => rfl
  | cons a as ih =>
    by_cases hq : q a
    · by_cases hp : p a
      · simp [List.filter_cons, hq, List.find?_cons_of_pos, hp]
      · rw [List.filter_cons, if_pos hq, List.find?_cons_of_neg _ hp,
          List.find?_cons_of_neg, ih]
        simp [hq, hp]
    · rw [List.filter_cons, if_neg hq, List.find?_cons_of_neg, ih]
      simp [hq]

theorem argmaxFirst_ne_none {α : Type} (f : α → Nat) (a : α) (as : List α) :
    argmaxFirst f (a :: as) ≠ none := by
  cases hm : argmaxFirst f as with
  | none => simp [argmaxFirst, hm]
  | some b => by_cases hgt : f b > f a <;> simp [argmaxFirst, hm, hgt]

theorem argmaxFirst_eq_none {α : Type} {f : α → Nat} {l : List α}
    (h : argmaxFirst f l = none) : l = [] := by
  cases l with
  | nil => rfl
  | cons a as => exact absurd h (argmaxFirst_ne_none f a as)

theorem argmaxFirst_mem {α : Type} {f : α → Nat} {l : List α} {x : α}
    (h : argmaxFirst f l = some x) : x ∈ l := by
  induction l generalizing x with
  | nil => simp [argmaxFirst] at h
  | cons a as ih =>
    cases hm : argmaxFirst f as with
    | none =>
      simp only [argmaxFirst, hm] at h
      cases h
      exact List.mem_cons_self a as
    | some b =>
      simp only [argmaxFirst, hm] at h
      by_cases hgt : f b > f a
      · rw [if_pos hgt] at h
        cases h
        exact List.mem_cons_of_mem a (ih hm)
      · rw [if_neg hgt] at h
        cases h
        exact List.mem_cons_self a as

theorem argmaxFirst_le {α : Type} {f : α → Nat} {l : List α} {x : α}
    (h : argmaxFirst f l = some x) : ∀ y ∈ l, f y ≤ f x := by
  induction l generalizing x with
  | nil => simp [argmaxFirst] at h
  | cons a as ih =>
    intro y hy
    cases hm : argmaxFirst f as with
    | none =>
      have has : as = [] := argmaxFirst_eq_none hm
      subst has
      simp only [argmaxFirst, hm] at h
      cases h
      simp at hy
      subst hy
      exact le_refl _
    | some b =>
      simp only [argmaxFirst, hm] at h
      rcases List.mem_cons.mp hy with hya | hyas
      · by_cases hgt : f b > f a
        · rw [if_pos hgt] at h
          cases h
          rw [hya]
          exact le_of_lt hgt
        · rw [if_neg hgt] at h
          cases h
          rw [hya]
      · by_cases hgt : f b > f a
        · rw [if_pos hgt] at h
          cases h
          exact ih hm y hyas
        · rw [if_neg hgt] at h
          cases h
          exact le_trans (ih hm y hyas) (Nat.le_of_not_lt hgt)

theorem latest_go_append (storage : Storage) (company_id : String)
    (cs1 cs2 : List String) (best : Option (String × Blob)) :
    latest_go storage company_id best (cs1 ++ cs2) =
      latest_go storage company_id (latest_go storage company_id best cs1) cs2 := by
  induction cs1 generalizing best with
  | nil => rfl
  | cons c rest ih =>
    simp only [List.cons_append, latest_go]
    exact ih _

theorem latest_step_some (storage : Storage) (company_id : String)
    (p : String × Blob) (c : String) :
    ∃ q, latest_step storage company_id (some p) c = some q ∧
      p.2.last_modified ≤ q.2.last_modified ∧
      ∀ b' ∈ (storage c).filter (fun x => strContains x.name company_id),
        b'.last_modified ≤ q.2.last_modified := by
  cases hm : argmaxFirst (fun b => b.last_modified)
      ((storage c).filter (fun b => strContains b.name company_id)) with
  | none =>
    refine ⟨p, ?_, le_refl _, ?_⟩
    · simp only [latest_step, hm]
    · intro b' hb'
      rw [argmaxFirst_eq_none hm] at hb'
      exact absurd hb' (List.not_mem_nil b')
  | some m =>
    by_cases hgt : m.last_modified > p.2.last_modified
    · refine ⟨(c, m), ?_, le_of_lt hgt, ?_⟩
      · simp only [latest_step, hm]
        rw [if_pos hgt]
      · intro b' hb'
        exact argmaxFirst_le hm b' hb'
    · refine ⟨p, ?_, le_refl _, ?_⟩
      · simp only [latest_step, hm]
        rw [if_neg hgt]
      · intro b' hb'
        exact le_trans (argmaxFirst_le hm b' hb') (Nat.le_of_not_lt hgt)

theorem latest_go_init_le (storage : Storage) (company_id : String) :
    ∀ (cs : List String) (p : String × Blob) (c : String) (b : Blob),
    latest_go storage company_id (some p) cs = some (c, b) →
    p.2.last_modified ≤ b.last_modified := by
  intro cs
  induction cs with
  | nil =>
    intro p c b h
    simp only [latest_go] at h
    cases h
    exact le_refl _
  | cons c0 rest ih =>
    intro p c b h
    obtain ⟨q, hq, hpq, _⟩ := latest_step_some storage company_id p c0
    simp only [latest_go, hq] at h
    exact le_trans hpq (ih q c b h)

theorem latest_go_mem (storage : Storage) (company_id : String) :
    ∀ (cs : List String) (best : Option (String × Blob)) (c : String) (b : Blob),
    latest_go storage company_id best cs = some (c, b) →
    best = some (c, b) ∨
      (c ∈ cs ∧ b ∈ (storage c).filter (fun x => strContains x.name company_id)) := by
  intro cs
  induction cs with
  | nil =>
    intro best c b h
    simp only [latest_go] at h
    exact Or.inl h
  | cons c0 rest ih =>
    intro best c b h
    simp only [latest_go] at h
    rcases ih _ c b h with hstep | ⟨hc, hb⟩
    · cases hm : argmaxFirst (fun x => x.last_modified)
          ((storage c0).filter (fun x => strContains x.name company_id)) with
      | none =>
        simp only [latest_step, hm] at hstep
        exact Or.inl hstep
      | some m =>
        cases best with
        | none =>
          simp only [latest_step, hm] at hstep
          simp only [Option.some.injEq, Prod.mk.injEq] at hstep
          obtain ⟨rfl, rfl⟩ := hstep
          exact Or.inr ⟨List.mem_cons_self _ _, argmaxFirst_mem hm⟩
        | some p =>
          by_cases hgt : m.last_modified > p.2.last_modified
          · simp only [latest_step, hm] at hstep
            rw [if_pos hgt] at hstep
            simp only [Option.some.injEq, Prod.mk.injEq] at hstep
            obtain ⟨rfl, rfl⟩ := hstep
            exact Or.inr ⟨List.mem_cons_self _ _, argmaxFirst_mem hm⟩
          · simp only [latest_step, hm] at hstep
            rw [if_neg hgt] at hstep
            exact Or.inl hstep
    · exact Or.inr ⟨List.mem_cons_of_mem _ hc, hb⟩

theorem latest_go_ub (storage : Storage) (company_id : String) :
    ∀ (cs : List String) (best : Option (String × Blob)) (c : String) (b : Blob),
    latest_go storage company_id best cs = some (c, b) →
    ∀ c' ∈ cs, ∀ b' ∈ (storage c').filter (fun x => strContains x.name company_id),
      b'.last_modified ≤ b.last_modified := by
  intro cs
  induction cs with
  | nil =>
    intro best c b _ c' hc'
    exact absurd hc' (List.not_mem_nil c')
  | cons c0 rest ih =>
    intro best c b h c' hc' b' hb'
    simp only [latest_go] at h
    rcases List.mem_cons.mp hc' with rfl | hc'rest
    · cases best with
      | none =>
        cases hm : argmaxFirst (fun x => x.last_modified)
            ((storage c').filter (fun x => strContains x.name company_id)) with
        | none =>
          rw [argmaxFirst_eq_none hm] at hb'
          exact absurd hb' (List.not_mem_nil b')
        | some m =>
          have hstep : latest_step storage company_id none c' = some (c', m) := by
            simp only [latest_step, hm]
          rw [hstep] at h
          have hmb := latest_go_init_le storage company_id rest (c', m) c b h
          exact le_trans (argmaxFirst_le hm b' hb') hmb
      | some p =>
        obtain ⟨q, hq, _, hub⟩ := latest_step_some storage company_id p c'
        rw [hq] at h
        have hqb := latest_go_init_le storage company_id rest q c b h
        exact le_trans (hub b' hb') hqb
    · exact ih _ c b h c' hc'rest b' hb'

theorem latest_go_frozen (storage : Storage) (company_id : String) :
    ∀ (cs : List String) (p : String × Blob),
    (∀ c' ∈ cs, ∀ b' ∈ (storage c').filter (fun x => strContains x.name company_id),
       b'.last_modified ≤ p.2.last_modified) →
    latest_go storage company_id (some p) cs = some p := by
  intro cs
  induction cs with
  | nil =>
    intro p _
    rfl
  | cons c0 rest ih =>
    intro p hub
    have hstep : latest_step storage company_id (some p) c0 = some p := by
      cases hm : argmaxFirst (fun b => b.last_modified)
          ((storage c0).filter (fun b => strContains b.name company_id)) with
      | none => simp only [latest_step, hm]
      | some m =>
        have hmle : m.last_modified ≤ p.2.last_modified :=
          hub c0 (List.mem_cons_self _ _) m (argmaxFirst_mem hm)
        simp only [latest_step, hm]
        rw [if_neg (Nat.not_lt.mpr hmle)]
    simp only [latest_go, hstep]
    exact ih p (fun c' hc' => hub c' (List.mem_cons_of_mem _ hc'))

/-! ### Claim C1 -/

/-- C1 counterexample: with the unconfigured application name `NOPE` and the
EMPTY client id, `download_latest_files` returns the missing-input error
(InvalidRequest), not `Invalid application name` (UnknownApplication): the
truthiness guard on the inputs runs before the mapping-membership guard. -/
theorem c1_counterexample :
    download_latest_files env0 "NOPE" "" =
      .ok (400, .err "Missing application_name or company_id") ∧
    download_latest_files env0 "NOPE" "" ≠
      .ok (400, .err "Invalid application name") := by
  exact ⟨rfl, by decide⟩

/-- C1 (amended): for every environment, every NON-empty client id and every
non-empty application identifier that is not a configured profile key,
`download_latest_files` yields the UnknownApplication error
(`Invalid application name`, status 400), independent of the client id;
with an empty client id the InvalidRequest guard fires first instead. -/
theorem c1_unknown_application (env : Env) (app_name company_id : String)
    (ha : app_name ≠ "") (hc : company_id ≠ "")
    (hu : app_container_mapping env.cfg app_name = none) :
    download_latest_files env app_name company_id =
      .ok (400, .err "Invalid application name") := by
  have hg : (app_name == "" || company_id == "") = false := by
    simp [ha, hc]
  simp [download_latest_files, hg, hu]

/-- C1 witness: the amended theorem at the concrete environment, the
unconfigured application name `NOPE` and the non-empty client `ACME01`. -/
theorem c1_witness :
    download_latest_files env0 "NOPE" "ACME01" =
      .ok (400, .err "Invalid application name") :=
  c1_unknown_application env0 "NOPE" "ACME01" (by decide) (by decide) (by rfl)

/-! ### Claim C10 -/

/-- C10: the guard of the upload-tracking handler checks only that the most
recent record exists and its upload-entry list is non-empty; when the first
upload entry lacks the `upload_id` key, the handler raises an uncaught
`KeyError('upload_id')` instead of returning the structured 404 error. -/
theorem c10_missing_upload_id_key (storage : Storage) (sign : SignFn)
    (containers : List String) (coll : List UploadRecord) (company_id : String)
    (r : UploadRecord) (e0 : UploadEntry) (es : List UploadEntry)
    (hr : argmaxFirst (fun x => x.created_on)
        (coll.filter (fun x => x.company_id == company_id)) = some r)
    (hu : r.asset_add_uploads = some (e0 :: es))
    (hk : e0.upload_id = none) :
    handle_atna_download storage sign containers coll company_id =
      .error (.keyError "upload_id") ∧
    handle_atna_download storage sign containers coll company_id ≠
      .ok (404, .err "No upload_id found for the given company_id") := by
  have h : handle_atna_download storage sign containers coll company_id =
      .error (.keyError "upload_id") := by
    simp only [handle_atna_download, hr, hu, hk]
  refine ⟨h, ?_⟩
  rw [h]
  decide

/-- C10 witness: with one upload record whose single entry lacks the
`upload_id` key, the handler raises `KeyError('upload_id')`. -/
theorem c10_witness :
    handle_atna_download storageEmpty signOk ["a"] [recNoKey] "ACME01" =
      .error (.keyError "upload_id") :=
  (c10_missing_upload_id_key storageEmpty signOk ["a"] [recNoKey] "ACME01"
    recNoKey ⟨none⟩ [] (by rfl) (by rfl) (by rfl)).1

/-! ### Claim C5 -/

/-- C5: the upload-tracking strategy selects the client's upload record with
the maximal creation timestamp (the model of sort-descending-take-first),
fails with the structured 404 when no record matches or the chosen record
carries no upload entries, and otherwise proceeds with the first entry's
upload identifier. -/
theorem c5_record_selection (storage : Storage) (sign : SignFn)
    (containers : List String) (coll : List UploadRecord) (company_id : String) :
    (argmaxFirst (fun r => r.created_on)
        (coll.filter (fun r => r.company_id == company_id)) = none →
      handle_atna_download storage sign containers coll company_id =
        .ok (404, .err "No upload_id found for the given company_id")) ∧
    (∀ r, argmaxFirst (fun r => r.created_on)
        (coll.filter (fun r => r.company_id == company_id)) = some r →
      (r ∈ coll ∧ r.company_id = company_id ∧
        ∀ r' ∈ coll, r'.company_id = company_id → r'.created_on ≤ r.created_on) ∧
      ((r.asset_add_uploads = none ∨ r.asset_add_uploads = some []) →
        handle_atna_download storage sign containers coll company_id =
          .ok (404, .err "No upload_id found for the given company_id")) ∧
      (∀ e0 es uid, r.asset_add_uploads = some (e0 :: es) → e0.upload_id = some uid →
        handle_atna_download storage sign containers coll company_id =
          atna_resolve storage sign containers uid)) := by
  refine ⟨fun h => ?_, fun r hr => ⟨⟨?_, ?_, ?_⟩, fun hcase => ?_, fun e0 es uid hu hk => ?_⟩⟩
  · simp only [handle_atna_download, h]
  · exact (List.mem_filter.mp (argmaxFirst_mem hr)).1
  · exact eq_of_beq (List.mem_filter.mp (argmaxFirst_mem hr)).2
  · intro r' hr' hcid
    exact argmaxFirst_le hr r' (List.mem_filter.mpr ⟨hr', by simp [hcid]⟩)
  · rcases hcase with hnone | hnil
    · simp only [handle_atna_download, hr, hnone]
    · simp only [handle_atna_download, hr, hnil]
  · simp only [handle_atna_download, hr, hu, hk]

/-- C5 witness: of two records for `ACME01` with creation stamps 5 and 3,
the handler uses the stamp-5 record and proceeds with its first upload id
`u-77`: on the two-container store it resolves the container-`a` object. -/
theorem c5_witness :
    handle_atna_download storageU signOk ["a", "b"] [recOld, recU77] "ACME01" =
      atna_resolve storageU signOk ["a", "b"] "u-77" :=
  ((c5_record_selection storageU signOk ["a", "b"] [recOld, recU77] "ACME01").2
    recU77 (by rfl)).2.2 ⟨some "u-77"⟩ [⟨some "u-12"⟩] "u-77" (by rfl) (by rfl)

/-! ### Claim C6 -/

/-- C6: the upload-tracking scan visits the configured containers in order
and returns on the first blob whose name has the upload id as a substring:
a match in the head container short-circuits the scan, a matchless head
container defers to the remaining ones, any result is a genuine match, a
found blob yields exactly one issued link (200), and an empty full scan
yields the structured 404 `NoMatchingObject` error. -/
theorem c6_first_match (storage : Storage) (sign : SignFn) (upload_id : String) :
    (∀ cs c b, atna_find storage upload_id cs = some (c, b) →
      c ∈ cs ∧ b ∈ storage c ∧ strContains b.name upload_id = true) ∧
    (∀ c rest b, (storage c).find? (fun x => strContains x.name upload_id) = some b →
      atna_find storage upload_id (c :: rest) = some (c, b)) ∧
    (∀ c rest, (storage c).find? (fun x => strContains x.name upload_id) = none →
      atna_find storage upload_id (c :: rest) = atna_find storage upload_id rest) ∧
    (∀ cs c b url, atna_find storage upload_id cs = some (c, b) →
      sign c b.name = .ok url →
      atna_resolve storage sign cs upload_id =
        .ok (200, .singleUrl ("SAS link generated for " ++ b.name) url)) ∧
    (∀ cs, atna_find storage upload_id cs = none →
      atna_resolve storage sign cs upload_id =
        .ok (404, .err "No file found matching upload_id")) := by
  refine ⟨?_, fun c rest b h => ?_, fun c rest h => ?_,
    fun cs c b url h hs => ?_, fun cs h => ?_⟩
  · intro cs
    induction cs with
    | nil =>
      intro c b h
      simp [atna_find] at h
    | cons c0 rest ih =>
      intro c b h
      cases hf : (storage c0).find? (fun x => strContains x.name upload_id) with
      | some b0 =>
        simp only [atna_find, hf] at h
        simp only [Option.some.injEq, Prod.mk.injEq] at h
        obtain ⟨rfl, rfl⟩ := h
        refine ⟨List.mem_cons_self _ _, List.mem_of_find?_eq_some hf, ?_⟩
        have hp := List.find?_some hf
        simpa using hp
      | none =>
        simp only [atna_find, hf] at h
        obtain ⟨hc, hb, hm⟩ := ih c b h
        exact ⟨List.mem_cons_of_mem _ hc, hb, hm⟩
  · simp only [atna_find, h]
  · simp only [atna_find, h]
  · simp only [atna_resolve, h, hs]
  · simp only [atna_resolve, h]

/-- C6 witness: with the upload id `u-77` present in both containers `a`
and `b` (configured in that order), the scan resolves the object of
container `a` and one link is issued for it. -/
theorem c6_witness :
    atna_find storageU "u-77" ["a", "b"] = some ("a", ⟨"asset-u-77.csv", 2⟩) ∧
    atna_resolve storageU signOk ["a", "b"] "u-77" =
      .ok (200, .singleUrl "SAS link generated for asset-u-77.csv"
        "a/asset-u-77.csv?tok") := by
  have hfind : (storageU "a").find? (fun x => strContains x.name "u-77") =
      some ⟨"asset-u-77.csv", 2⟩ := by decide
  have h1 := (c6_first_match storageU signOk "u-77").2.1 "a" ["b"]
    ⟨"asset-u-77.csv", 2⟩ hfind
  refine ⟨h1, ?_⟩
  exact (c6_first_match storageU signOk "u-77").2.2.2.1 ["a", "b"] "a"
    ⟨"asset-u-77.csv", 2⟩ "a/asset-u-77.csv?tok" h1 (by rfl)

/-! ### Claim C3 -/

/-- C3: on a full scan with zero matches, the recency and content-match
strategies return HTTP 200 with a successful empty-result message, while
the upload-tracking and processed-workbook strategies return the structured
404 `NoMatchingObject` error. -/
theorem c3_empty_scan_asymmetry (storage : Storage) (fetch : FetchFn) (sign : SignFn)
    (containers : List String) (generic : List GenericRecord)
    (company_id upload_id app_name : String) :
    (latest_blob_pick storage containers company_id = none →
      handle_latest_blob_download storage sign containers company_id =
        .ok (200, .msgOnly "No files found for company_id")) ∧
    (∀ record cd raw, generic.find? (fun r => r.company_id == company_id) = some record →
      record.connection_details.head? = some cd → cd.csp_acct_name = some raw →
      raw ≠ "" →
      paloalto_scan storage fetch sign (pyStripLower raw) containers = [] →
      handle_paloalto_download storage fetch sign containers generic company_id =
        .ok (200, .msgOnly "No matching data found")) ∧
    (atna_find storage upload_id containers = none →
      atna_resolve storage sign containers upload_id =
        .ok (404, .err "No file found matching upload_id")) ∧
    (∀ record, generic.find? (fun r => r.company_id == company_id) = some record →
      f5_files_to_download app_name record ≠ [] →
      f5_scan storage sign containers (f5_files_to_download app_name record) = .ok [] →
      handle_f5_checkpoint_download storage sign containers generic app_name company_id =
        .ok (404, .err "No matching blobs found in containers")) := by
  refine ⟨fun h => ?_, fun record cd raw hrec hhead hcsp hraw hscan => ?_,
    fun h => ?_, fun record hrec hne hscan => ?_⟩
  · simp only [handle_latest_blob_download, h]
  · have hraw' : (raw == "") = false := by simp [hraw]
    simp only [handle_paloalto_download, hrec, hhead, hcsp, hraw', Bool.false_eq_true,
      if_false, hscan, List.isEmpty_nil, if_true]
  · simp only [atna_resolve, h]
  · have hne' : (f5_files_to_download app_name record).isEmpty = false := by
      cases hl : f5_files_to_download app_name record with
      | nil => exact absurd hl hne
      | cons a l => rfl
    simp only [handle_f5_checkpoint_download, hrec, hne', Bool.false_eq_true,
      if_false, hscan, List.isEmpty_nil, if_true]

/-- C3 witness: over an empty store, the four strategies' empty-scan results
are 200, 200, 404 and 404 respectively. -/
theorem c3_witness :
    handle_latest_blob_download storageEmpty signOk ["c1"] "ACME01" =
      .ok (200, .msgOnly "No files found for company_id") ∧
    handle_paloalto_download storageEmpty fetchFail signOk ["c1"] [recAcme] "ACME01" =
      .ok (200, .msgOnly "No matching data found") ∧
    atna_resolve storageEmpty signOk ["c1"] "u-77" =
      .ok (404, .err "No file found matching upload_id") ∧
    handle_f5_checkpoint_download storageEmpty signOk ["c1"] [recF5] "F5" "ACME01" =
      .ok (404, .err "No matching blobs found in containers") := by
  have t1 := c3_empty_scan_asymmetry storageEmpty fetchFail signOk ["c1"] [recAcme]
    "ACME01" "u-77" "F5"
  have t2 := c3_empty_scan_asymmetry storageEmpty fetchFail signOk ["c1"] [recF5]
    "ACME01" "u-77" "F5"
  exact ⟨t1.1 (by rfl),
    t1.2.1 recAcme ⟨some "Acme"⟩ "Acme" (by rfl) (by rfl) (by rfl) (by decide) (by rfl),
    t1.2.2.1 (by rfl),
    t2.2.2.2 recF5 (by rfl) (by decide) (by rfl)⟩

/-! ### Claim C4 -/

/-- C4: when the recency strategy picks a blob, that blob is a genuine match
from a configured container whose last-modified stamp is maximal among every
matching blob of every configured container (so within a container the
later stamp wins); and appending further containers whose matching blobs are
not strictly more recent leaves the pick unchanged, so on a tie at the
maximal stamp the earlier-configured container's object is kept and later
candidates must be strictly greater to replace it. -/
theorem c4_recency_max_and_tiebreak (storage : Storage) (company_id : String)
    (cs1 cs2 : List String) (c : String) (b : Blob)
    (h1 : latest_blob_pick storage cs1 company_id = some (c, b))
    (h2 : ∀ c' ∈ cs2, ∀ b' ∈ storage c', strContains b'.name company_id = true →
      b'.last_modified ≤ b.last_modified) :
    (c ∈ cs1 ∧ b ∈ storage c ∧ strContains b.name company_id = true) ∧
    (∀ c' ∈ cs1, ∀ b' ∈ storage c', strContains b'.name company_id = true →
      b'.last_modified ≤ b.last_modified) ∧
    latest_blob_pick storage (cs1 ++ cs2) company_id = some (c, b) := by
  rcases latest_go_mem storage company_id cs1 none c b h1 with habs | ⟨hc, hb⟩
  · simp at habs
  · have hbf := List.mem_filter.mp hb
    refine ⟨⟨hc, hbf.1, hbf.2⟩, ?_, ?_⟩
    · intro c' hc' b' hb' hm'
      exact latest_go_ub storage company_id cs1 none c b h1 c' hc' b'
        (List.mem_filter.mpr ⟨hb', hm'⟩)
    · have h1' : latest_go storage company_id none cs1 = some (c, b) := h1
      rw [latest_blob_pick, latest_go_append, h1']
      exact latest_go_frozen storage company_id cs2 (c, b)
        (fun c' hc' b' hb'f =>
          h2 c' hc' b' (List.mem_filter.mp hb'f).1 (List.mem_filter.mp hb'f).2)

/-- C4 witness: in container `c1` the stamp-5 match beats the stamp-3 match,
and the stamp-5 tie in the later container `c2` does not displace it. -/
theorem c4_witness :
    latest_blob_pick storageT ["c1", "c2"] "acme" = some ("c1", ⟨"acme-new", 5⟩) :=
  (c4_recency_max_and_tiebreak storageT "acme" ["c1"] ["c2"] "c1" ⟨"acme-new", 5⟩
    (by decide) (by decide)).2.2

/-! ### Claim C2 -/

/-- C2 counterexample: with two configured containers that both hold the
exact filename `f.csv`, the processed-workbook scan produces TWO matched
files for that one filename — one per container — because the `break` ends
only the inner blob loop, so there is no cross-container first-wins cut. -/
theorem c2_counterexample :
    f5_scan_file storageF signOk "f.csv" ["c1", "c2"] =
      .ok [("f.csv", "c1/f.csv?tok"), ("f.csv", "c2/f.csv?tok")] := by
  decide

/-- C2 (amended): in the processed-workbook scan, within each configured
container the object found is the FIRST one whose name exactly equals the
filename; every configured container holding such an object contributes one
matched file, in container order (a filename present in several containers
is matched once per container, not once overall); under a single-container
profile — as `app_container_mapping` configures for F5 and CHECKPOINT —
this yields at most one matched file per filename; and the scan of a
filename list is the concatenation of the independent per-filename scans. -/
theorem c2_per_container_matches (storage : Storage) (sign : SignFn)
    (u : String → String → String) (blob_name : String) :
    (∀ listing b, f5_find_in_container listing blob_name = some b →
      b.name = blob_name) ∧
    (∀ listing : List Blob, f5_find_in_container listing blob_name =
      listing.find? (fun b => b.name == blob_name)) ∧
    (∀ cs, f5_scan_file storage (fun c x => .ok (u c x)) blob_name cs =
      .ok (cs.filterMap (fun c =>
        (f5_find_in_container (storage c) blob_name).map
          (fun _ => (blob_name, u c blob_name))))) ∧
    (∀ c l, f5_scan_file storage (fun c' x => .ok (u c' x)) blob_name [c] = .ok l →
      l.length ≤ 1) ∧
    (∀ cs f fs lf ls, f5_scan_file storage sign f cs = .ok lf →
      f5_scan storage sign cs fs = .ok ls →
      f5_scan storage sign cs (f :: fs) = .ok (lf ++ ls)) := by
  have hname : ∀ listing b, f5_find_in_container listing blob_name = some b →
      b.name = blob_name := by
    intro listing b h
    have hp := List.find?_some h
    simpa using hp
  have hfirst : ∀ listing : List Blob, f5_find_in_container listing blob_name =
      listing.find? (fun b => b.name == blob_name) := by
    intro listing
    have hfun : (fun b : Blob => strStartsWith b.name blob_name && (b.name == blob_name)) =
        (fun b : Blob => b.name == blob_name) := by
      funext b
      cases hbe : (b.name == blob_name) with
      | true =>
        have hb : b.name = blob_name := eq_of_beq hbe
        simp [strStartsWith, hb, listStartsWith_refl]
      | false => simp
    simp only [f5_find_in_container, find?_filter]
    rw [hfun]
  have hlist : ∀ cs, f5_scan_file storage (fun c x => .ok (u c x)) blob_name cs =
      .ok (cs.filterMap (fun c =>
        (f5_find_in_container (storage c) blob_name).map
          (fun _ => (blob_name, u c blob_name)))) := by
    intro cs
    induction cs with
    | nil => rfl
    | cons c0 rest ih =>
      cases hf : f5_find_in_container (storage c0) blob_name with
      | none => simp [f5_scan_file, hf, ih]
      | some b0 => simp [f5_scan_file, hf, ih]
  refine ⟨hname, hfirst, hlist, ?_, ?_⟩
  · intro c l h
    rw [hlist [c]] at h
    cases h
    cases hf : f5_find_in_container (storage c) blob_name <;>
      simp [List.filterMap_cons, hf]
  · intro cs f fs lf ls hf hs
    simp only [f5_scan, hf, hs]

/-- C2 witness: with a single configured container holding the exact
filename, the scan yields exactly one matched file for it. -/
theorem c2_witness :
    f5_scan_file storageF (fun c x => (.ok (uColon c x) : Except PyExn String))
      "f.csv" ["c1"] = .ok [("f.csv", uColon "c1" "f.csv")] := by
  rw [(c2_per_container_matches storageF signOk uColon "f.csv").2.2.1 ["c1"]]
  rfl

/-! ### Claim C7 -/

/-- Helper: a blob of a configured container whose per-blob step yields a
matched pair appears in the full content-match scan. -/
theorem paloalto_scan_mem (storage : Storage) (fetch : FetchFn) (sign : SignFn)
    (csp : String) (p : String × String) :
    ∀ (containers : List String) (c : String), c ∈ containers →
    ∀ b ∈ storage c, paloalto_blob_result fetch sign csp c b = some p →
    p ∈ paloalto_scan storage fetch sign csp containers := by
  intro containers
  induction containers with
  | nil =>
    intro c hc
    exact absurd hc (List.not_mem_nil c)
  | cons c0 rest ih =>
    intro c hc b hb hres
    rcases List.mem_cons.mp hc with rfl | hcr
    · simp only [paloalto_scan]
      exact List.mem_append_left _
        (by simp only [paloalto_scan_container]
            exact List.mem_filterMap.mpr ⟨b, hb, hres⟩)
    · simp only [paloalto_scan]
      exact List.mem_append_right _ (ih c hcr b hb hres)

/-- C7 counterexample: the blob `report.csv` parses to a table whose
normalized `CSP Acct Name` column contains the normalized target `acme`,
yet the scan result is empty: the SAS-signing call sits inside the same
`try` block, raises here, and the `except` swallows the matched object. -/
theorem c7_counterexample :
    fetchAcme "c1" "report.csv" = .ok [("CSP Acct Name", ["ACME "])] ∧
    "acme" ∈ (["ACME "].map pyStripLower) ∧
    paloalto_scan storageR fetchAcme signFail "acme" ["c1"] = [] := by
  refine ⟨rfl, by decide, by decide⟩

/-- C7 (amended): in the content-match scan, a blob whose download or parse
raises is skipped without aborting the scan of the remaining blobs, a blob
whose parsed table lacks the `CSP Acct Name` column is skipped the same
way, and every blob whose normalized column contains the normalized target
AND whose link issuance succeeds appears in the result (all such matches
are collected over the full scan; a signing failure drops that match). -/
theorem c7_skip_and_collect (storage : Storage) (fetch : FetchFn)
    (sign : SignFn) (csp c : String) :
    (∀ b e, fetch c b.name = .error e →
      paloalto_blob_result fetch sign csp c b = none) ∧
    (∀ b tbl, fetch c b.name = .ok tbl →
      List.lookup "CSP Acct Name" tbl = none →
      paloalto_blob_result fetch sign csp c b = none) ∧
    (∀ l1 b l2, paloalto_blob_result fetch sign csp c b = none →
      paloalto_scan_container fetch sign csp c (l1 ++ b :: l2) =
        paloalto_scan_container fetch sign csp c (l1 ++ l2)) ∧
    (∀ containers b tbl vals url, c ∈ containers → b ∈ storage c →
      fetch c b.name = .ok tbl → List.lookup "CSP Acct Name" tbl = some vals →
      csp ∈ vals.map pyStripLower → sign c b.name = .ok url →
      (b.name, url) ∈ paloalto_scan storage fetch sign csp containers) := by
  refine ⟨fun b e h => ?_, fun b tbl hf hl => ?_, fun l1 b l2 h => ?_,
    fun containers b tbl vals url hc hb hf hl hm hs => ?_⟩
  · simp only [paloalto_blob_result, h]
  · simp only [paloalto_blob_result, hf, hl]
  · simp only [paloalto_scan_container, List.filterMap_append, List.filterMap_cons, h]
  · have hres : paloalto_blob_result fetch sign csp c b = some (b.name, url) := by
      simp only [paloalto_blob_result, hf, hl]
      rw [if_pos hm, hs]
    exact paloalto_scan_mem storage fetch sign csp (b.name, url) containers c hc b hb hres

/-- C7 witness: over a container listing a raising blob, a column-less blob
and two matching blobs, both matches appear in the scan result. -/
theorem c7_witness :
    ("m1.csv", uColon "c1" "m1.csv") ∈
      paloalto_scan storageMix fetchMix (fun c x => .ok (uColon c x)) "acme" ["c1"] ∧
    ("m2.csv", uColon "c1" "m2.csv") ∈
      paloalto_scan storageMix fetchMix (fun c x => .ok (uColon c x)) "acme" ["c1"] := by
  have h := c7_skip_and_collect storageMix fetchMix (fun c x => .ok (uColon c x)) "acme" "c1"
  exact ⟨h.2.2.2 ["c1"] ⟨"m1.csv", 0⟩ [("CSP Acct Name", ["ACME "])] ["ACME "]
      (uColon "c1" "m1.csv") (by decide) (by decide) (by rfl) (by rfl) (by decide) (by rfl),
    h.2.2.2 ["c1"] ⟨"m2.csv", 0⟩ [("CSP Acct Name", ["ACME "])] ["ACME "]
      (uColon "c1" "m2.csv") (by decide) (by decide) (by rfl) (by rfl) (by decide) (by rfl)⟩

/-! ### Claim C8 -/

/-- C8: an issued link's token expires exactly at `issue_time + ttl` (hence
no later), the default call path uses a ttl of 15 minutes, the token grants
read-only permission, it is bound to exactly the requested container/object
pair, and tokens for different pairs differ — a link issued for one object
cannot stand for another. -/
theorem c8_sas_scoped (now expiry_minutes : Nat) (account container blob : String) :
    ((generate_sas_url now account container blob expiry_minutes).token.expiry =
      now + expiry_minutes) ∧
    ((generate_sas_url now account container blob expiry_minutes).token.expiry ≤
      now + expiry_minutes) ∧
    (generate_sas_url_default now account container blob =
      generate_sas_url now account container blob 15) ∧
    ((generate_sas_url now account container blob expiry_minutes).token.read_only = true) ∧
    ((generate_sas_url now account container blob expiry_minutes).token.container_name =
      container) ∧
    ((generate_sas_url now account container blob expiry_minutes).token.blob_name = blob) ∧
    (∀ container' blob',
      (generate_sas_url now account container' blob' expiry_minutes).token =
        (generate_sas_url now account container blob expiry_minutes).token →
      container' = container ∧ blob' = blob) := by
  refine ⟨rfl, le_refl _, rfl, rfl, rfl, rfl, ?_⟩
  intro c' b' h
  exact ⟨congrArg SasToken.container_name h, congrArg SasToken.blob_name h⟩

/-- C8 witness: a link issued at time 100 with the default ttl expires at
115, and its token differs from the token of a link for another object. -/
theorem c8_witness :
    (generate_sas_url 100 "acct" "ct" "blob.csv" 15).token.expiry = 115 ∧
    (generate_sas_url 100 "acct" "ct" "blob.csv" 15).token ≠
      (generate_sas_url 100 "acct" "ct" "other.csv" 15).token := by
  have h := c8_sas_scoped 100 15 "acct" "ct" "blob.csv"
  refine ⟨h.1, fun heq => ?_⟩
  exact absurd (h.2.2.2.2.2.2 "ct" "other.csv" heq.symm).2 (by decide)

/-! ### Claim C9 -/

/-- C9 counterexample: in the content-match strategy, with one blob whose
content matches the client's account name, a SAS-signing failure is caught
by the per-blob `except`, the object is dropped, and the request returns
HTTP 200 with the empty-result message — not a structured 500 error. -/
theorem c9_counterexample :
    handle_paloalto_download storageR fetchAcme signFail ["c1"] [recAcme] "ACME01" =
      .ok (200, .msgOnly "No matching data found") := by
  decide

/-- C9 (amended): when credential delegation or signing raises during link
issuance, only the recency strategy surfaces it as the structured 500
error; the content-match strategy catches it per object and silently drops
the matched object; the upload-tracking and processed-workbook strategies
let the exception propagate uncaught instead of answering with a structured
error. No strategy retries the issuance. -/
theorem c9_issuance_failure_paths (storage : Storage) (fetch : FetchFn) (sign : SignFn)
    (containers : List String) (company_id : String) (e : PyExn) :
    (∀ c b, latest_blob_pick storage containers company_id = some (c, b) →
      sign c b.name = .error e →
      handle_latest_blob_download storage sign containers company_id =
        .ok (500, .err "Failed to generate download link")) ∧
    (∀ c b tbl vals csp, fetch c b.name = .ok tbl →
      List.lookup "CSP Acct Name" tbl = some vals → csp ∈ vals.map pyStripLower →
      sign c b.name = .error e →
      paloalto_blob_result fetch sign csp c b = none) ∧
    (∀ cs c b uid, atna_find storage uid cs = some (c, b) →
      sign c b.name = .error e →
      atna_resolve storage sign cs uid = .error e) ∧
    (∀ c rest f b, f5_find_in_container (storage c) f = some b →
      sign c f = .error e →
      f5_scan_file storage sign f (c :: rest) = .error e) := by
  refine ⟨fun c b h hs => ?_, fun c b tbl vals csp hf hl hm hs => ?_,
    fun cs c b uid h hs => ?_, fun c rest f b h hs => ?_⟩
  · simp only [handle_latest_blob_download, h, hs]
  · simp only [paloalto_blob_result, hf, hl]
    rw [if_pos hm, hs]
  · simp only [atna_resolve, h, hs]
  · simp only [f5_scan_file, h, hs]

/-- C9 witness: with signing always raising, the recency strategy answers
the structured 500 while the upload-tracking scan's exception escapes. -/
theorem c9_witness :
    handle_latest_blob_download storageR signFail ["c1"] "report" =
      .ok (500, .err "Failed to generate download link") ∧
    atna_resolve storageU signFail ["a", "b"] "u-77" =
      .error (.exn "sas failure") := by
  have h := c9_issuance_failure_paths storageR fetchAcme signFail ["c1"] "report"
    (.exn "sas failure")
  have h' := c9_issuance_failure_paths storageU fetchAcme signFail ["a", "b"] "report"
    (.exn "sas failure")
  exact ⟨h.1 "c1" ⟨"report.csv", 7⟩ (by decide) (by rfl),
    h'.2.2.1 ["a", "b"] "a" ⟨"asset-u-77.csv", 2⟩ "u-77" (by decide) (by rfl)⟩

end App
